import Mathlib

/-!
Verification of the tiger-option signal-processing pipeline.

Shallow embedding of the services under src/: the Python `Decimal` type is
modelled as a mantissa/exponent pair (`Dec`) where digit-count checks matter
and as `ℚ` elsewhere; Python `None` becomes `Option`; Python truthiness of an
optional numeric value (`if x:`) is `truthy`.  Logging calls are side-effect
free and are modelled as no-ops.
-/

set_option autoImplicit false

namespace TigerOption

/-- Python `Decimal` as stored: value = mant * 10 ^ exp.
`Decimal.as_tuple().exponent` is the `exp` field. -/
structure Dec where
  mant : Int
  exp : Int
deriving DecidableEq, Repr

/-- Numeric value of a `Dec`. -/
def Dec.toRat (d : Dec) : ℚ := (d.mant : ℚ) * (10 : ℚ) ^ d.exp

/-- Python truthiness of an optional numeric value: `None` and `0` are falsy. -/
def truthy (x : Option ℚ) : Bool :=
  match x with
  | none => false
  | some v => v != 0

/-- Python `str.strip`: drop leading and trailing whitespace (list-based so
that proofs can evaluate it). -/
def pyStrip (s : String) : String :=
  { data := ((s.data.dropWhile Char.isWhitespace).reverse.dropWhile Char.isWhitespace).reverse }

/-- Python `str.upper` (ASCII). -/
def pyUpper (s : String) : String := { data := s.data.map Char.toUpper }

/-- Python `str.lower` (ASCII). -/
def pyLower (s : String) : String := { data := s.data.map Char.toLower }

/-- Python `c in s` for a single character. -/
def containsChar (s : String) (c : Char) : Bool := s.data.contains c

/-! ## Risk manager (src/services/risk_manager.py) -/

/-- `RiskCheckResult` enum from risk_manager.py. -/
inductive RiskCheckResult where
  | approved
  | rejected
  | warning
  | requires_review
deriving DecidableEq, Repr

/-- Return value of one risk sub-check: the pass flag and its messages
(`Tuple[bool, List[str]]` in the source). -/
structure CheckOutcome where
  ok : Bool
  msgs : List String
deriving DecidableEq, Repr

/-- The outcomes of the seven sub-checks run by `check_trade_risk`, in source
order: position size, concentration, daily loss, Greeks exposure, expiration,
liquidity, market conditions.  The sub-checks read broker/portfolio state and
the wall clock, so `check_trade_risk` is embedded as a function of their
outcomes; `_check_greeks_exposure` is additionally embedded concretely below. -/
structure SubCheckResults where
  size : CheckOutcome
  concentration : CheckOutcome
  daily_loss : CheckOutcome
  greeks : CheckOutcome
  expiration : CheckOutcome
  liquidity : CheckOutcome
  market : CheckOutcome
deriving DecidableEq, Repr

/-- The `errors` list accumulated by `check_trade_risk` lines 97-114: only the
position-size check (1) and the daily-loss check (3) extend `errors`. -/
def risk_errors (c : SubCheckResults) : List String :=
  (if c.size.ok then [] else c.size.msgs) ++
  (if c.daily_loss.ok then [] else c.daily_loss.msgs)

/-- The `warnings` list accumulated by `check_trade_risk` lines 104-136:
checks 2, 4, 5, 6 and 7 extend `warnings`. -/
def risk_warnings (c : SubCheckResults) : List String :=
  (if c.concentration.ok then [] else c.concentration.msgs) ++
  (if c.greeks.ok then [] else c.greeks.msgs) ++
  (if c.expiration.ok then [] else c.expiration.msgs) ++
  (if c.liquidity.ok then [] else c.liquidity.msgs) ++
  (if c.market.ok then [] else c.market.msgs)

/-- `RiskManager.check_trade_risk` lines 92-159: accumulate errors and
warnings from the seven sub-checks, derive the verdict, and return
`(result, errors + warnings)` (the risk-metrics dict is not modelled). -/
def check_trade_risk (c : SubCheckResults) : RiskCheckResult × List String :=
  let errors := risk_errors c
  let warnings := risk_warnings c
  let result :=
    if errors ≠ [] then RiskCheckResult.rejected
    else if warnings.length > 3 then RiskCheckResult.requires_review
    else if warnings ≠ [] then RiskCheckResult.warning
    else RiskCheckResult.approved
  (result, errors ++ warnings)

/-- `RiskManager._check_greeks_exposure` lines 252-299.  Inputs: the current
portfolio Greek sums (from `calculate_portfolio_metrics`), the contract's
Greek fields (`None` makes the arithmetic raise, landing in the `except`
branch), the proposed quantity and `signal.action` (a string; `OrderSide` is a
str-enum so `side == OrderSide.BUY` is string equality with "buy").  The
interpolated numeric values of the warning texts are elided. -/
def check_greeks_exposure (pmDelta pmVega pmTheta : ℚ)
    (contractDelta contractVega contractTheta : Option ℚ)
    (quantity : ℚ) (side : String) : CheckOutcome :=
  match contractDelta, contractVega, contractTheta with
  | some cd, some cv, some ct =>
    let multiplier := if side = "buy" then quantity else -quantity
    let newDelta := pmDelta + cd * multiplier
    let newVega := pmVega + cv * multiplier
    let newTheta := pmTheta + ct * multiplier
    let warnings :=
      (if |newDelta| > 100 then ["Portfolio delta limit exceeded"] else []) ++
      (if |newVega| > 1000 then ["Vega exposure limit exceeded"] else []) ++
      (if newTheta < -500 then ["Theta decay limit exceeded"] else [])
    { ok := warnings.isEmpty, msgs := warnings }
  | _, _, _ => { ok := false, msgs := ["Greeks check error"] }

/-! ## Signal validator (src/services/signal_validator.py)

Python regular expressions are embedded as character-list matchers: each
pattern used by the validator is anchored and its character classes are
disjoint from the following literal, so maximal-munch scanning is equivalent
to the regex.  `str.strip` is `pyStrip` and `\s`/`str.strip` whitespace is
`Char.isWhitespace` (the ASCII cases coincide). -/

/-- Per-account configuration (src/config/apikeys.py `AccountConfig`), the
fields the pipeline reads. -/
structure AccountConfig where
  name : String
  allow_options_trading : Bool
  allow_short_selling : Bool
  max_position_size : Int
  default_position_size : Int
deriving DecidableEq, Repr

/-- `WebhookSignal` (src/models/webhook.py): the simplified signal model.
`symbol`/`action` are plain strings (a missing field is the empty string),
numeric fields are optional decimals. -/
structure WebhookSignal where
  signal_id : Option String
  symbol : String
  action : String
  quantity : Option Dec
  price : Option Dec
  stop_price : Option Dec
  order_type : Option String
  time_in_force : Option String
deriving DecidableEq, Repr

/-- `SignalValidationResult` (src/models/webhook.py). -/
structure SignalValidationResult where
  is_valid : Bool
  errors : List String
  warnings : List String
  signal_id : Option String
  symbol : String
  action : String
deriving DecidableEq, Repr

/-- Regex `^[A-Z]{1,5}$` (`stock_pattern`). -/
def matches_stock_pattern (s : String) : Bool :=
  let cs := s.toList
  decide (1 ≤ cs.length) && decide (cs.length ≤ 5) && cs.all Char.isUpper

/-- Regex `crypto_pattern`: 3-10 upper-case letters, one slash-or-dash
separator, then 3-10 upper-case letters.  The leading letter block cannot
match the separator, so it is the maximal upper-case run. -/
def matches_crypto_pattern (s : String) : Bool :=
  let cs := s.toList
  let p := cs.takeWhile Char.isUpper
  match cs.dropWhile Char.isUpper with
  | [] => false
  | sep :: tail =>
    (sep = '/' || sep = '-') && decide (3 ≤ p.length) && decide (p.length ≤ 10) &&
    decide (3 ≤ tail.length) && decide (tail.length ≤ 10) && tail.all Char.isUpper

/-- Regex `^[A-Z]{1,5}\s+\d{6}[CP]\d{8}$` (`option_pattern`): letters, then
whitespace, then exactly six digits, a C/P marker, and exactly eight digits. -/
def matches_option_pattern (s : String) : Bool :=
  let cs := s.toList
  let letters := cs.takeWhile Char.isUpper
  let rest1 := cs.dropWhile Char.isUpper
  let ws := rest1.takeWhile Char.isWhitespace
  decide (1 ≤ letters.length) && decide (letters.length ≤ 5) && decide (1 ≤ ws.length) &&
  (match rest1.dropWhile Char.isWhitespace with
   | d1 :: d2 :: d3 :: d4 :: d5 :: d6 :: cp :: rest3 =>
     [d1, d2, d3, d4, d5, d6].all Char.isDigit && (cp = 'C' || cp = 'P') &&
     decide (rest3.length = 8) && rest3.all Char.isDigit
   | _ => false)

/-- One character of the whitelist regex of `_validate_symbol_format`:
upper-case letters, digits, whitespace, dot, dash, slash. -/
def symbol_char_ok (c : Char) : Bool :=
  c.isUpper || c.isDigit || c.isWhitespace || c = '.' || c = '-' || c = '/'

/-- The whole-string whitelist check of `_validate_symbol_format` (one or
more whitelisted characters). -/
def matches_symbol_charset (s : String) : Bool :=
  let cs := s.toList
  decide (1 ≤ cs.length) && cs.all symbol_char_ok

/-- `SignalValidator._is_option_symbol`. -/
def _is_option_symbol (symbol : String) : Bool :=
  containsChar symbol ' ' && (containsChar symbol 'C' || containsChar symbol 'P') &&
  decide (symbol.data.length > 10)

/-- `SignalValidator._is_crypto_symbol`. -/
def _is_crypto_symbol (symbol : String) : Bool :=
  containsChar symbol '/' || containsChar symbol '-'

/-- `SignalValidator._is_complex_symbol`. -/
def _is_complex_symbol (symbol : String) : Bool :=
  containsChar symbol '.' || decide (symbol.data.length > 5)

/-- `SignalValidator._validate_required_fields` lines 82-92. -/
def _validate_required_fields (signal : WebhookSignal) : List String :=
  (if signal.symbol = "" ∨ pyStrip signal.symbol = "" then
    ["Symbol is required and cannot be empty"] else []) ++
  (if signal.action = "" ∨ pyStrip signal.action = "" then
    ["Action is required and cannot be empty"] else [])

/-- `SignalValidator._validate_symbol_format` lines 94-125. -/
def _validate_symbol_format (symbol : String) : List String :=
  if symbol = "" then []
  else
    let s := pyUpper (pyStrip symbol)
    if s.data.length < 1 then ["Symbol cannot be empty"]
    else
      (if s.data.length > 50 then ["Symbol is too long (max 50 characters)"] else []) ++
      (if !matches_symbol_charset s then ["Symbol contains invalid characters"] else []) ++
      (if _is_option_symbol s then
        (if !matches_option_pattern s then ["Invalid option symbol format"] else [])
      else if _is_crypto_symbol s then
        (if !matches_crypto_pattern s then ["Invalid crypto symbol format"] else [])
      else if !matches_stock_pattern s && !_is_complex_symbol s then
        ["Invalid symbol format"]
      else [])

/-- `SignalValidator._validate_action` lines 127-139 (the interpolated list of
valid actions in the message text is elided). -/
def _validate_action (action : String) : List String :=
  if action = "" then []
  else
    let a := pyStrip (pyLower action)
    if a = "buy" ∨ a = "sell" ∨ a = "close" ∨ a = "close_all" then []
    else ["Invalid action"]

/-- `SignalValidator._validate_quantities` lines 141-156.  The fractional
digit bound checks `as_tuple().exponent < -8`, i.e. the stored exponent. -/
def _validate_quantities (signal : WebhookSignal) : List String :=
  match signal.quantity with
  | none => []
  | some q =>
    (if q.toRat ≤ 0 then ["Quantity must be positive"] else []) ++
    (if q.toRat > 1000000 then ["Quantity is too large (max 1,000,000)"] else []) ++
    (if q.exp < -8 then ["Quantity has too many decimal places (max 8)"] else [])

/-- `SignalValidator._validate_prices` lines 158-187. -/
def _validate_prices (signal : WebhookSignal) : List String :=
  (match signal.price with
   | none => []
   | some p =>
     (if p.toRat ≤ 0 then ["Price must be positive"] else []) ++
     (if p.toRat > 1000000 then ["Price is too high (max 1,000,000)"] else [])) ++
  (match signal.stop_price with
   | none => []
   | some sp =>
     (if sp.toRat ≤ 0 then ["Stop price must be positive"] else []) ++
     (if sp.toRat > 1000000 then ["Stop price is too high (max 1,000,000)"] else [])) ++
  (match signal.price, signal.stop_price with
   | some p, some sp =>
     let otIsStopLimit :=
       match signal.order_type with
       | none => false
       | some ot => ot != "" && pyLower ot == "stop_limit"
     if otIsStopLimit then
       let al := if signal.action = "" then "" else pyLower signal.action
       if al = "buy" ∧ sp.toRat ≤ p.toRat then
         ["For buy stop-limit orders, stop price should be above limit price"]
       else if al = "sell" ∧ sp.toRat ≥ p.toRat then
         ["For sell stop-limit orders, stop price should be below limit price"]
       else []
     else []
   | _, _ => [])

/-- The `valid_order_types` set of the validator. -/
def valid_order_types : List String :=
  ["market", "limit", "stop", "stop_limit", "trailing_stop"]

/-- The `valid_time_in_force` set of the validator. -/
def valid_time_in_force : List String := ["day", "gtc", "ioc", "fok"]

/-- `SignalValidator._validate_order_parameters` lines 189-210 (interpolated
message parts elided). -/
def _validate_order_parameters (signal : WebhookSignal) : List String :=
  (match signal.order_type with
   | none => []
   | some ot =>
     if ot = "" then []
     else
       let otl := pyStrip (pyLower ot)
       (if otl ∉ valid_order_types then ["Invalid order type"] else []) ++
       (if (otl = "limit" ∨ otl = "stop_limit") ∧ signal.price = none then
         ["Price is required for limit orders"] else []) ++
       (if (otl = "stop" ∨ otl = "stop_limit") ∧ signal.stop_price = none then
         ["Stop price is required for stop orders"] else [])) ++
  (match signal.time_in_force with
   | none => []
   | some tif =>
     if tif = "" then []
     else if pyStrip (pyLower tif) ∉ valid_time_in_force then ["Invalid time in force"]
     else [])

/-- `SignalValidator._validate_against_account_config` lines 212-233.  The
short-selling branch appends nothing in the source and is omitted. -/
def _validate_against_account_config (signal : WebhookSignal) (cfg : AccountConfig) :
    List String :=
  (if !cfg.allow_options_trading && signal.symbol != "" && _is_option_symbol signal.symbol then
    ["Options trading is not enabled for this account"] else []) ++
  (match signal.quantity with
   | none => []
   | some q =>
     if q.toRat > (cfg.max_position_size : ℚ) then
       ["Quantity exceeds max position size"] else [])

/-- `SignalValidator._validate_business_logic` lines 235-255; `nowHour` is
`datetime.now().hour`. -/
def _validate_business_logic (nowHour : Nat) (signal : WebhookSignal) (cfg : AccountConfig) :
    List String :=
  (match signal.quantity with
   | none => []
   | some q =>
     if q.toRat ≠ 0 ∧ q.toRat > (cfg.max_position_size : ℚ) * (1 / 2 : ℚ) then
       ["Large position size detected - consider risk management"] else []) ++
  (match signal.order_type with
   | none => []
   | some ot =>
     if ot ≠ "" ∧ pyLower ot = "market" ∧ (nowHour < 9 ∨ nowHour > 16) then
       ["Market order outside typical trading hours"] else []) ++
  (if signal.symbol != "" && _is_option_symbol signal.symbol then
    ["Verify option expiry date before trading"] else [])

/-- `SignalValidator.validate_signal` lines 44-80: run every check,
accumulating all errors, and report `is_valid = (len(errors) == 0)`. -/
def validate_signal (nowHour : Nat) (signal : WebhookSignal) (cfg : AccountConfig) :
    SignalValidationResult :=
  let errors :=
    _validate_required_fields signal ++
    _validate_symbol_format signal.symbol ++
    _validate_action signal.action ++
    _validate_quantities signal ++
    _validate_prices signal ++
    _validate_order_parameters signal ++
    _validate_against_account_config signal cfg
  let warnings := _validate_business_logic nowHour signal cfg
  { is_valid := errors.isEmpty
    errors := errors
    warnings := warnings
    signal_id := signal.signal_id
    symbol := signal.symbol
    action := signal.action }

/-! ## Option selector (src/services/option_selector.py) -/

/-- `OptionType` enum (src/models/tiger.py). -/
inductive OptionType where
  | call
  | put
deriving DecidableEq, Repr

/-- `OptionContract` (src/models/tiger.py): the fields the embedded services
read.  Prices and Greeks are optional decimals, modelled as `Option ℚ`. -/
structure OptionContract where
  symbol : String
  strike : Option ℚ
  option_type : OptionType
  bid : Option ℚ
  ask : Option ℚ
  last : Option ℚ
  delta : Option ℚ
  vega : Option ℚ
  theta : Option ℚ
deriving DecidableEq, Repr

/-- The strike used for distance sorting, `float(x.strike)`, modelled exactly
(present whenever the truthiness guard passed). -/
def strikeVal (c : OptionContract) : ℚ := c.strike.getD 0

/-- The OTM filter loop of `_select_otm_contract` lines 224-235:
skip contracts with a falsy strike (`None` or zero); keep calls with
`strike > current_price` and puts with `strike < current_price`. -/
def otm_filter (contracts : List OptionContract) (current_price : ℚ) :
    List OptionContract :=
  contracts.filter (fun c =>
    truthy c.strike &&
    (match c.option_type with
     | OptionType.call => decide (strikeVal c > current_price)
     | OptionType.put => decide (strikeVal c < current_price)))

/-- `otm_contracts.sort(key=|strike - price|)[0]`: the sort is stable, so the
head is the first element of minimal distance, computed here as a left fold. -/
def closest_to_atm (current_price : ℚ) (c : OptionContract)
    (rest : List OptionContract) : OptionContract :=
  rest.foldl (fun best x =>
    if |strikeVal x - current_price| < |strikeVal best - current_price| then x else best) c

/-- `OptionSelector._select_otm_contract` lines 212-242. -/
def _select_otm_contract (contracts : List OptionContract) (current_price : ℚ) :
    Option OptionContract :=
  if contracts.isEmpty then none
  else
    match otm_filter contracts current_price with
    | [] => none
    | c :: rest => some (closest_to_atm current_price c rest)

/-- A bare call contract at a given strike, for concrete selector runs. -/
def callContract (strike : ℚ) : OptionContract :=
  { symbol := "AAPL", strike := some strike, option_type := OptionType.call,
    bid := none, ask := none, last := none, delta := none, vega := none, theta := none }

/-! ## Position manager (src/services/position_manager.py) -/

/-- `Position` (src/models/tiger.py): the fields the embedded services read. -/
structure Position where
  symbol : String
  quantity : ℚ
  market_value : Option ℚ
  unrealized_pnl : Option ℚ
deriving DecidableEq, Repr

/-- Python dict assignment `d[k] = v`: replace the value in place if the key
exists, else append (insertion order preserved). -/
def dictInsert (book : List (String × Position)) (k : String) (v : Position) :
    List (String × Position) :=
  match book with
  | [] => [(k, v)]
  | (k1, v1) :: rest =>
    if k1 = k then (k1, v) :: rest else (k1, v1) :: dictInsert rest k v

/-- `PositionManager.update_positions` lines 72-79: clear the whole book, then
store each incoming position under its symbol (positions with a falsy symbol
are skipped). -/
def update_positions (book : List (String × Position)) (positions : List Position) :
    List (String × Position) :=
  positions.foldl (fun b p => if p.symbol ≠ "" then dictInsert b p.symbol p else b) []

/-- `PositionManager.get_all_positions` lines 103-105. -/
def get_all_positions (book : List (String × Position)) : List Position :=
  book.map Prod.snd

/-- `PositionManager.get_position` lines 99-101. -/
def get_position (book : List (String × Position)) (symbol : String) : Option Position :=
  (book.find? (fun e => e.1 == symbol)).map Prod.snd

/-- `PositionManager.suggest_position_sizing` lines 270-308: clamp the signal
quantity to the account maximum, collapse the clamped value to the default
size when it exceeds twice the default, cap by
`portfolio_value * risk_percentage * 10 / 5.00` when the portfolio value is
positive, and floor the result at 1.  `portfolio_value` is
`calculate_portfolio_metrics()["total_market_value"]`. -/
def suggest_position_sizing (cfg : AccountConfig) (signal_quantity : ℚ)
    (risk_percentage : ℚ) (portfolio_value : ℚ) : ℚ :=
  let s1 := min signal_quantity (cfg.max_position_size : ℚ)
  let s2 :=
    if s1 > (cfg.default_position_size : ℚ) * 2 then (cfg.default_position_size : ℚ)
    else s1
  let s3 :=
    if portfolio_value > 0 then min s2 (portfolio_value * risk_percentage * 10 / 5)
    else s2
  max s3 1

/-- The sizing algorithm as the specification words it: the collapse to the
default size is triggered by the REQUESTED quantity exceeding twice the
default (the code tests the already-clamped quantity instead).  Kept for
comparison against `suggest_position_sizing`. -/
def suggest_position_sizing_claimed (cfg : AccountConfig) (signal_quantity : ℚ)
    (risk_percentage : ℚ) (portfolio_value : ℚ) : ℚ :=
  let s1 := min signal_quantity (cfg.max_position_size : ℚ)
  let s2 :=
    if signal_quantity > (cfg.default_position_size : ℚ) * 2 then
      (cfg.default_position_size : ℚ)
    else s1
  let s3 :=
    if portfolio_value > 0 then min s2 (portfolio_value * risk_percentage * 10 / 5)
    else s2
  max s3 1

/-! ## Signal processor queue drain (src/services/signal_processor.py) -/

/-- `TradeSignal` (src/models/webhook.py): the fields the embedded services
read.  `action` is a plain lower-cased string such as "buy". -/
structure TradeSignal where
  signal_id : String
  account_name : String
  symbol : String
  action : String
  quantity : Option ℚ
  price : Option ℚ
  stop_price : Option ℚ
  order_type : String
  time_in_force : String
deriving DecidableEq, Repr

/-- Outcome of `_process_single_signal` on one signal: a returned result dict
(with its status string; `_process_single_signal` itself converts its own
exceptions into a "failed" status) or an exception escaping into the drain
loop's `except` branch. -/
inductive ExecOutcome where
  | ret (status : String)
  | exn (msg : String)
deriving DecidableEq, Repr

/-- One entry of the drain loop's `results` list. -/
structure SignalResult where
  signal_id : String
  status : String
  error : Option String
deriving DecidableEq, Repr

/-- Return value of `process_queued_signals` (timestamps elided). -/
structure DrainResult where
  processed_count : Nat
  failed_count : Nat
  total_count : Nat
  results : List SignalResult
deriving DecidableEq, Repr

/-- The result entry recorded for one drained signal: the returned dict, or
the error record built in the `except` branch (lines 161-169). -/
def result_of (exec : TradeSignal → ExecOutcome) (s : TradeSignal) : SignalResult :=
  match exec s with
  | ExecOutcome.ret st => { signal_id := s.signal_id, status := st, error := none }
  | ExecOutcome.exn m => { signal_id := s.signal_id, status := "error", error := some m }

/-- The `while self._processing_queue` loop of `process_queued_signals`
lines 148-169, popping from the front and accumulating counters and results. -/
def drain_loop (exec : TradeSignal → ExecOutcome) :
    List TradeSignal → Nat → Nat → List SignalResult → Nat × Nat × List SignalResult
  | [], processed, failed, results => (processed, failed, results)
  | s :: rest, processed, failed, results =>
    match exec s with
    | ExecOutcome.ret st =>
      if st = "processed" then
        drain_loop exec rest (processed + 1) failed
          (results ++ [{ signal_id := s.signal_id, status := st, error := none }])
      else
        drain_loop exec rest processed (failed + 1)
          (results ++ [{ signal_id := s.signal_id, status := st, error := none }])
    | ExecOutcome.exn m =>
      drain_loop exec rest processed (failed + 1)
        (results ++ [{ signal_id := s.signal_id, status := "error", error := some m }])

/-- `SignalProcessor.process_queued_signals` lines 141-177. -/
def process_queued_signals (exec : TradeSignal → ExecOutcome)
    (queue : List TradeSignal) : DrainResult :=
  match drain_loop exec queue 0 0 [] with
  | (p, f, results) =>
    { processed_count := p, failed_count := f, total_count := p + f, results := results }

/-! ## Webhook payload conversion (src/api/webhook_routes.py, src/models/webhook.py) -/

/-- `side` literal of `WebhookSignalPayload`. -/
inductive Side where
  | buy
  | sell
deriving DecidableEq, Repr

/-- `marketPosition` / `prevMarketPosition` literal of `WebhookSignalPayload`. -/
inductive MarketPosition where
  | long
  | short
  | flat
deriving DecidableEq, Repr

/-- `WebhookSignalPayload` (src/models/webhook.py): the Shape A payload fields
the conversion reads (delta fields and TradingView extras are carried only
into metadata and are elided). -/
structure WebhookSignalPayload where
  account_name : String
  side : Side
  exchange : String
  period : String
  market_position : MarketPosition
  prev_market_position : MarketPosition
  symbol : String
  price : String
  timestamp : String
  size : String
  position_size : String
  id : String
  alert_message : Option String
  comment : Option String
  qty_type : String
deriving DecidableEq, Repr

/-- Value of a digit run. -/
def digitsVal (cs : List Char) : Nat :=
  cs.foldl (fun acc c => acc * 10 + (c.toNat - 48)) 0

/-- `Decimal(str)` on the plain numeric strings the alert platform sends:
optional sign, integer digits, optional dot and fractional digits (exponent
notation and specials are not modelled).  Failure is `none`, landing in the
conversion's `except` branch. -/
def parseDec (s : String) : Option Dec :=
  let signed :=
    match s.data with
    | '-' :: t => ((-1 : Int), t)
    | '+' :: t => ((1 : Int), t)
    | t => ((1 : Int), t)
  let sign := signed.1
  let rest := signed.2
  let intPart := rest.takeWhile Char.isDigit
  match rest.dropWhile Char.isDigit with
  | [] =>
    if intPart = [] then none
    else some { mant := sign * (digitsVal intPart : Int), exp := 0 }
  | '.' :: fracs =>
    if fracs.all Char.isDigit ∧ (intPart ≠ [] ∨ fracs ≠ []) then
      some { mant := sign * ((digitsVal intPart * 10 ^ fracs.length + digitsVal fracs : Nat) : Int),
             exp := -(fracs.length : Int) }
    else none
  | _ => none

/-- `WebhookSignalPayload.is_closing_position` (webhook.py lines 117-120). -/
def is_closing_position (p : WebhookSignalPayload) : Bool :=
  p.prev_market_position != MarketPosition.flat && p.market_position == MarketPosition.flat

/-- `WebhookSignalPayload.is_reversing_position` (webhook.py lines 122-129). -/
def is_reversing_position (p : WebhookSignalPayload) : Bool :=
  p.prev_market_position != MarketPosition.flat &&
  p.market_position != MarketPosition.flat &&
  p.prev_market_position != p.market_position

/-- `convert_deribit_payload_to_signal` (webhook_routes.py lines 336-382).
Strategy/comment/metadata passthrough fields are not part of the embedded
`WebhookSignal`. -/
def convert_deribit_payload_to_signal (payload : WebhookSignalPayload)
    (request_id : String) : WebhookSignal :=
  let action0 := if payload.side = Side.buy then "buy" else "sell"
  let action :=
    if is_closing_position payload then "close"
    else if is_reversing_position payload then
      (if payload.market_position = MarketPosition.long then "buy" else "sell")
    else action0
  { signal_id := some request_id
    symbol := payload.symbol
    action := action
    quantity := parseDec payload.size
    price := parseDec payload.price
    stop_price := none
    order_type := some "market"
    time_in_force := some "day" }

/-! ## Order strategy (src/services/order_strategy.py) -/

/-- `OrderStrategy` enum. -/
inductive OrderStrategy where
  | market
  | limit
  | limit_midpoint
  | limit_aggressive
  | limit_conservative
  | stop_loss
  | bracket
deriving DecidableEq, Repr

/-- `PriceCalculationMethod` enum. -/
inductive PriceCalculationMethod where
  | bid_ask_midpoint
  | last_price
  | bid_price
  | ask_price
  | theoretical_price
deriving DecidableEq, Repr

/-- `OrderType` enum (src/models/tiger.py). -/
inductive OrderType where
  | market
  | limit
  | stop
  | stop_limit
  | trailing_stop
deriving DecidableEq, Repr

/-- `OrderStrategyService._get_price_by_method` lines 182-227.  Every branch
that falls through to the shared fallback chain dereferences
`contract.last_price`, a field that does not exist on the `OptionContract`
model (the model names it `last`), so the fallback raises `AttributeError`
and the local handler returns `None`; likewise the `LAST_PRICE` branch
itself.  The `theoretical_price` branch starts with a `hasattr` test that is
always false and then reuses the midpoint. -/
def _get_price_by_method (contract : OptionContract)
    (method : PriceCalculationMethod) : Option ℚ :=
  match method with
  | PriceCalculationMethod.bid_ask_midpoint =>
    if truthy contract.bid && truthy contract.ask then
      some ((contract.bid.getD 0 + contract.ask.getD 0) / 2)
    else none
  | PriceCalculationMethod.last_price => none
  | PriceCalculationMethod.bid_price =>
    if truthy contract.bid then contract.bid else none
  | PriceCalculationMethod.ask_price =>
    if truthy contract.ask then contract.ask else none
  | PriceCalculationMethod.theoretical_price =>
    if truthy contract.bid && truthy contract.ask then
      some ((contract.bid.getD 0 + contract.ask.getD 0) / 2)
    else none

/-- `OrderStrategyService._calculate_order_price` lines 125-180.  `side` is
`signal.action`, a string compared against the str-enum `OrderSide`. -/
def _calculate_order_price (contract : OptionContract) (strategy : OrderStrategy)
    (side : String) : Option ℚ :=
  match strategy with
  | OrderStrategy.market => none
  | OrderStrategy.limit =>
    _get_price_by_method contract PriceCalculationMethod.bid_ask_midpoint
  | OrderStrategy.limit_midpoint =>
    _get_price_by_method contract PriceCalculationMethod.bid_ask_midpoint
  | OrderStrategy.limit_aggressive =>
    if side = "buy" then
      match _get_price_by_method contract PriceCalculationMethod.ask_price with
      | some a =>
        if a ≠ 0 then some (a * (99 / 100))
        else _get_price_by_method contract PriceCalculationMethod.bid_ask_midpoint
      | none => _get_price_by_method contract PriceCalculationMethod.bid_ask_midpoint
    else
      match _get_price_by_method contract PriceCalculationMethod.bid_price with
      | some b =>
        if b ≠ 0 then some (b * (101 / 100))
        else _get_price_by_method contract PriceCalculationMethod.bid_ask_midpoint
      | none => _get_price_by_method contract PriceCalculationMethod.bid_ask_midpoint
  | OrderStrategy.limit_conservative =>
    if side = "buy" then
      match _get_price_by_method contract PriceCalculationMethod.bid_price with
      | some b =>
        if b ≠ 0 then some (b * (101 / 100))
        else _get_price_by_method contract PriceCalculationMethod.bid_ask_midpoint
      | none => _get_price_by_method contract PriceCalculationMethod.bid_ask_midpoint
    else
      match _get_price_by_method contract PriceCalculationMethod.ask_price with
      | some a =>
        if a ≠ 0 then some (a * (99 / 100))
        else _get_price_by_method contract PriceCalculationMethod.bid_ask_midpoint
      | none => _get_price_by_method contract PriceCalculationMethod.bid_ask_midpoint
  | _ => _get_price_by_method contract PriceCalculationMethod.bid_ask_midpoint

/-- `OrderStrategyService._get_order_type` lines 229-237. -/
def _get_order_type (strategy : OrderStrategy) : OrderType :=
  if strategy = OrderStrategy.market then OrderType.market
  else if strategy = OrderStrategy.stop_loss then OrderType.stop
  else OrderType.limit

/-- `OrderStrategyService._calculate_stop_price` lines 239-264. -/
def _calculate_stop_price (contract : OptionContract) (side : String)
    (stop_percentage : ℚ) : Option ℚ :=
  match _get_price_by_method contract PriceCalculationMethod.bid_ask_midpoint with
  | none => none
  | some p =>
    if p = 0 then none
    else if side = "buy" then some (p * (1 - stop_percentage))
    else some (p * (1 + stop_percentage))

/-- The order-parameters dict built by `create_order` lines 98-112
(`created_at` elided, the strategy tag kept as the enum). -/
structure OrderParams where
  symbol : String
  order_type : OrderType
  side : String
  quantity : ℚ
  price : Option ℚ
  time_in_force : String
  strategy : OrderStrategy
  signal_id : String
  stop_price : Option ℚ
deriving DecidableEq, Repr

/-- The body of `OrderStrategyService.create_order` lines 81-112 up to just
before the final log statement: the quantity gate (`quantity or
signal.quantity` is Python `or`, so the explicit argument is used only when
present and non-zero), the price calculation, and the order-parameters dict
as assembled in the try block.  `none` is the early `return None` of the
quantity gate (lines 83-85) or of the failed price calculation (lines 90-92);
`some` is the dict of lines 98-108 (plus the stop-loss extra of line 112). -/
def build_order_params (signal : TradeSignal) (contract : OptionContract)
    (strategy : OrderStrategy) (quantity : Option ℚ) : Option OrderParams :=
  let order_quantity := if truthy quantity then quantity else signal.quantity
  match order_quantity with
  | none => none
  | some q =>
    if q ≤ 0 then none
    else
      let order_price := _calculate_order_price contract strategy signal.action
      if order_price = none ∧ strategy ≠ OrderStrategy.market then none
      else
        some
          { symbol := contract.symbol
            order_type := _get_order_type strategy
            side := signal.action
            quantity := q
            price := order_price
            time_in_force := if signal.time_in_force = "" then "day" else signal.time_in_force
            strategy := strategy
            signal_id := signal.signal_id
            stop_price :=
              if strategy = OrderStrategy.stop_loss then
                _calculate_stop_price contract signal.action (1 / 10)
              else none }

/-- `OrderStrategyService.create_order` lines 60-123.  When the dict has been
assembled, the function logs it (lines 114-117) with an f-string that
evaluates `signal.action.value`; `TradeSignal.action` is a plain `str`
(webhook.py line 210), so this raises `AttributeError` inside the `try`,
caught by the `except` at lines 121-123, which returns `None`.  The function
therefore returns `None` on every path: at the quantity gate, at the price
check, or at the log statement after building the params dict. -/
def create_order (signal : TradeSignal) (contract : OptionContract)
    (strategy : OrderStrategy) (quantity : Option ℚ) : Option OrderParams :=
  match build_order_params signal contract strategy quantity with
  | none => none
  | some _ => none

/-- A concrete trade signal with a positive quantity, for witnesses. -/
def demoTradeSignal : TradeSignal :=
  { signal_id := "sig-1", account_name := "demo", symbol := "AAPL", action := "buy",
    quantity := some 5, price := none, stop_price := none,
    order_type := "market", time_in_force := "day" }

/-- A concrete trade signal with no quantity at all, for witnesses. -/
def demoTradeSignalNoQty : TradeSignal :=
  { signal_id := "sig-2", account_name := "demo", symbol := "AAPL", action := "buy",
    quantity := none, price := none, stop_price := none,
    order_type := "market", time_in_force := "day" }

/-- A concrete option contract with a two-sided quote, for witnesses. -/
def demoOrderContract : OptionContract :=
  { symbol := "AAPL  250117C00150000", strike := some 150,
    option_type := OptionType.call, bid := some 5, ask := some 6, last := none,
    delta := none, vega := none, theta := none }

/-- A demo account configuration for witnesses. -/
def demoAccount : AccountConfig :=
  { name := "demo", allow_options_trading := true, allow_short_selling := false,
    max_position_size := 1000, default_position_size := 100 }

/-- An account whose default size is more than half its maximum, exercising
the collapse branch of the sizing routine. -/
def wideDefaultAccount : AccountConfig :=
  { name := "demo", allow_options_trading := true, allow_short_selling := false,
    max_position_size := 1000, default_position_size := 600 }

/-- A concrete option position for witnesses. -/
def demoAaplPosition : Position :=
  { symbol := "AAPL  250117C00150000", quantity := 10, market_value := some 5000,
    unrealized_pnl := some 0 }

/-- A second concrete option position for witnesses. -/
def demoTslaPosition : Position :=
  { symbol := "TSLA  250117C00200000", quantity := 5, market_value := some 2000,
    unrealized_pnl := some 0 }

/-- The order parameters `build_order_params` assembles for `demoTradeSignal`
under the market strategy. -/
def demoOrderParams : OrderParams :=
  { symbol := "AAPL  250117C00150000", order_type := OrderType.market, side := "buy",
    quantity := 5, price := none, time_in_force := "day",
    strategy := OrderStrategy.market, signal_id := "sig-1", stop_price := none }

/-! ## Theorems -/

/-- A portfolio-delta breach makes `_check_greeks_exposure` emit its delta
message and report failure. -/
theorem check_greeks_exposure_delta_breach (pmD pmV pmT cd cv ct q : ℚ) (side : String)
    (hdelta : |pmD + cd * (if side = "buy" then q else -q)| > 100) :
    "Portfolio delta limit exceeded" ∈
      (check_greeks_exposure pmD pmV pmT (some cd) (some cv) (some ct) q side).msgs ∧
    (check_greeks_exposure pmD pmV pmT (some cd) (some cv) (some ct) q side).ok = false := by
  simp only [check_greeks_exposure]
  rw [if_pos hdelta]
  constructor
  · simp
  · simp [List.isEmpty]

/-- C1: `check_trade_risk` aggregates the seven sub-checks into exactly one
verdict: rejected iff an error-level message accumulated; otherwise
requires_review above 3 warnings, warning for 1-3 warnings, approved for zero
issues.  A portfolio-delta breach detected by `_check_greeks_exposure`
contributes only a warning-level message: with the two error-level checks
passing, the verdict is never rejected. -/
theorem check_trade_risk_verdict_aggregation :
    (∀ c : SubCheckResults,
      (check_trade_risk c).1 =
        (if risk_errors c ≠ [] then RiskCheckResult.rejected
         else if (risk_warnings c).length > 3 then RiskCheckResult.requires_review
         else if risk_warnings c ≠ [] then RiskCheckResult.warning
         else RiskCheckResult.approved)) ∧
    (∀ (c : SubCheckResults) (pmD pmV pmT cd cv ct q : ℚ) (side : String),
      c.size.ok = true → c.daily_loss.ok = true →
      c.greeks = check_greeks_exposure pmD pmV pmT (some cd) (some cv) (some ct) q side →
      |pmD + cd * (if side = "buy" then q else -q)| > 100 →
      "Portfolio delta limit exceeded" ∈ (check_trade_risk c).2 ∧
      (check_trade_risk c).1 ≠ RiskCheckResult.rejected) := by
  constructor
  · intro c
    rfl
  · intro c pmD pmV pmT cd cv ct q side hsize hloss hg hdelta
    obtain ⟨hmem0, hok0⟩ := check_greeks_exposure_delta_breach pmD pmV pmT cd cv ct q side hdelta
    rw [← hg] at hmem0 hok0
    have herr : risk_errors c = [] := by
      simp [risk_errors, hsize, hloss]
    have hmem : "Portfolio delta limit exceeded" ∈ risk_warnings c := by
      simp only [risk_warnings, hok0]
      simp only [Bool.false_eq_true, if_false, List.mem_append]
      tauto
    constructor
    · simp only [check_trade_risk]
      simp [herr, hmem]
    · simp only [check_trade_risk, herr]
      simp only [ne_eq, not_true_eq_false, if_false, reduceIte]
      split
      · simp
      · split <;> simp

/-- Witness for C1 at a concrete trade: flat portfolio, contract delta 1,
quantity 200 bought, every other sub-check clean. -/
theorem check_trade_risk_verdict_aggregation_witness :
    "Portfolio delta limit exceeded" ∈
      (check_trade_risk
        { size := ⟨true, []⟩, concentration := ⟨true, []⟩, daily_loss := ⟨true, []⟩,
          greeks := check_greeks_exposure 0 0 0 (some 1) (some 0) (some 0) 200 "buy",
          expiration := ⟨true, []⟩, liquidity := ⟨true, []⟩, market := ⟨true, []⟩ }).2 ∧
    (check_trade_risk
        { size := ⟨true, []⟩, concentration := ⟨true, []⟩, daily_loss := ⟨true, []⟩,
          greeks := check_greeks_exposure 0 0 0 (some 1) (some 0) (some 0) 200 "buy",
          expiration := ⟨true, []⟩, liquidity := ⟨true, []⟩, market := ⟨true, []⟩ }).1 ≠
      RiskCheckResult.rejected :=
  check_trade_risk_verdict_aggregation.2 _ 0 0 0 1 0 0 200 "buy" rfl rfl rfl (by norm_num)

/-- A list with a member is not reported empty. -/
theorem isEmpty_eq_false_of_mem {α : Type} {l : List α} {x : α} (h : x ∈ l) :
    l.isEmpty = false := by
  cases l with
  | nil => cases h
  | cons a t => rfl

/-- Any message produced by one of the seven error checks ends up in the
errors of `validate_signal` (the checks accumulate, they do not
short-circuit). -/
theorem mem_validate_errors_of_mem_part (nowHour : Nat) (signal : WebhookSignal)
    (cfg : AccountConfig) (e : String)
    (h : e ∈ _validate_required_fields signal ∨ e ∈ _validate_symbol_format signal.symbol ∨
         e ∈ _validate_action signal.action ∨ e ∈ _validate_quantities signal ∨
         e ∈ _validate_prices signal ∨ e ∈ _validate_order_parameters signal ∨
         e ∈ _validate_against_account_config signal cfg) :
    e ∈ (validate_signal nowHour signal cfg).errors := by
  show e ∈ _validate_required_fields signal ++ _validate_symbol_format signal.symbol ++
    _validate_action signal.action ++ _validate_quantities signal ++
    _validate_prices signal ++ _validate_order_parameters signal ++
    _validate_against_account_config signal cfg
  simp only [List.mem_append]
  tauto

/-- C2: a raw signal with a missing/empty symbol or action field validates to
`is_valid = false` with the corresponding error string, and every check's
errors are accumulated into the returned list (no short-circuiting). -/
theorem validate_signal_required_and_accumulating
    (nowHour : Nat) (signal : WebhookSignal) (cfg : AccountConfig) :
    (pyStrip signal.symbol = "" →
      "Symbol is required and cannot be empty" ∈ (validate_signal nowHour signal cfg).errors ∧
      (validate_signal nowHour signal cfg).is_valid = false) ∧
    (pyStrip signal.action = "" →
      "Action is required and cannot be empty" ∈ (validate_signal nowHour signal cfg).errors ∧
      (validate_signal nowHour signal cfg).is_valid = false) ∧
    (∀ e, e ∈ _validate_required_fields signal →
      e ∈ (validate_signal nowHour signal cfg).errors) ∧
    (∀ e, e ∈ _validate_symbol_format signal.symbol →
      e ∈ (validate_signal nowHour signal cfg).errors) ∧
    (∀ e, e ∈ _validate_action signal.action →
      e ∈ (validate_signal nowHour signal cfg).errors) ∧
    (∀ e, e ∈ _validate_quantities signal →
      e ∈ (validate_signal nowHour signal cfg).errors) ∧
    (∀ e, e ∈ _validate_prices signal →
      e ∈ (validate_signal nowHour signal cfg).errors) ∧
    (∀ e, e ∈ _validate_order_parameters signal →
      e ∈ (validate_signal nowHour signal cfg).errors) ∧
    (∀ e, e ∈ _validate_against_account_config signal cfg →
      e ∈ (validate_signal nowHour signal cfg).errors) := by
  have hvalid : (validate_signal nowHour signal cfg).is_valid =
      ((validate_signal nowHour signal cfg).errors).isEmpty := rfl
  refine ⟨?_, ?_, ?_, ?_, ?_, ?_, ?_, ?_, ?_⟩
  · intro hsym
    have hr : "Symbol is required and cannot be empty" ∈ _validate_required_fields signal := by
      simp [_validate_required_fields, hsym]
    have hm := mem_validate_errors_of_mem_part nowHour signal cfg _ (Or.inl hr)
    exact ⟨hm, by rw [hvalid]; exact isEmpty_eq_false_of_mem hm⟩
  · intro hact
    have hr : "Action is required and cannot be empty" ∈ _validate_required_fields signal := by
      simp [_validate_required_fields, hact]
    have hm := mem_validate_errors_of_mem_part nowHour signal cfg _ (Or.inl hr)
    exact ⟨hm, by rw [hvalid]; exact isEmpty_eq_false_of_mem hm⟩
  · exact fun e he => mem_validate_errors_of_mem_part nowHour signal cfg e (Or.inl he)
  · exact fun e he => mem_validate_errors_of_mem_part nowHour signal cfg e (Or.inr (Or.inl he))
  · exact fun e he =>
      mem_validate_errors_of_mem_part nowHour signal cfg e (Or.inr (Or.inr (Or.inl he)))
  · exact fun e he =>
      mem_validate_errors_of_mem_part nowHour signal cfg e
        (Or.inr (Or.inr (Or.inr (Or.inl he))))
  · exact fun e he =>
      mem_validate_errors_of_mem_part nowHour signal cfg e
        (Or.inr (Or.inr (Or.inr (Or.inr (Or.inl he)))))
  · exact fun e he =>
      mem_validate_errors_of_mem_part nowHour signal cfg e
        (Or.inr (Or.inr (Or.inr (Or.inr (Or.inr (Or.inl he))))))
  · exact fun e he =>
      mem_validate_errors_of_mem_part nowHour signal cfg e
        (Or.inr (Or.inr (Or.inr (Or.inr (Or.inr (Or.inr he))))))

/-- Witness for C2: a signal with empty symbol, blank action and negative
quantity collects all three errors at once and is invalid. -/
theorem validate_signal_required_and_accumulating_witness :
    "Symbol is required and cannot be empty" ∈
      (validate_signal 10
        { signal_id := none, symbol := "", action := " ", quantity := some ⟨-1, 0⟩,
          price := none, stop_price := none, order_type := none, time_in_force := none }
        { name := "demo", allow_options_trading := true, allow_short_selling := false,
          max_position_size := 1000, default_position_size := 100 }).errors ∧
    "Action is required and cannot be empty" ∈
      (validate_signal 10
        { signal_id := none, symbol := "", action := " ", quantity := some ⟨-1, 0⟩,
          price := none, stop_price := none, order_type := none, time_in_force := none }
        { name := "demo", allow_options_trading := true, allow_short_selling := false,
          max_position_size := 1000, default_position_size := 100 }).errors ∧
    "Quantity must be positive" ∈
      (validate_signal 10
        { signal_id := none, symbol := "", action := " ", quantity := some ⟨-1, 0⟩,
          price := none, stop_price := none, order_type := none, time_in_force := none }
        { name := "demo", allow_options_trading := true, allow_short_selling := false,
          max_position_size := 1000, default_position_size := 100 }).errors ∧
    (validate_signal 10
        { signal_id := none, symbol := "", action := " ", quantity := some ⟨-1, 0⟩,
          price := none, stop_price := none, order_type := none, time_in_force := none }
        { name := "demo", allow_options_trading := true, allow_short_selling := false,
          max_position_size := 1000, default_position_size := 100 }).is_valid = false := by
  obtain ⟨h1, h2, h3, h4, h5, h6, h7, h8, h9⟩ :=
    validate_signal_required_and_accumulating 10
      { signal_id := none, symbol := "", action := " ", quantity := some ⟨-1, 0⟩,
        price := none, stop_price := none, order_type := none, time_in_force := none }
      { name := "demo", allow_options_trading := true, allow_short_selling := false,
        max_position_size := 1000, default_position_size := 100 }
  obtain ⟨hs, hv⟩ := h1 (by decide)
  obtain ⟨ha, _⟩ := h2 (by decide)
  refine ⟨hs, ha, ?_, hv⟩
  apply h6
  simp [_validate_quantities, Dec.toRat]

/-- C3: a present quantity that is nonpositive or above 1,000,000 yields a
quantity error; a quantity in (0, 1,000,000] with at most 8 stored fractional
digits passes the quantity check with no error; and every quantity error is
part of the full validation result. -/
theorem validate_quantities_range (signal : WebhookSignal) (q : Dec)
    (hq : signal.quantity = some q) :
    ((q.toRat ≤ 0 ∨ 1000000 < q.toRat) → _validate_quantities signal ≠ []) ∧
    (0 < q.toRat → q.toRat ≤ 1000000 → -8 ≤ q.exp → _validate_quantities signal = []) ∧
    (∀ (nowHour : Nat) (cfg : AccountConfig) (e : String), e ∈ _validate_quantities signal →
      e ∈ (validate_signal nowHour signal cfg).errors) := by
  refine ⟨?_, ?_, ?_⟩
  · intro h
    rcases h with h | h
    · have : "Quantity must be positive" ∈ _validate_quantities signal := by
        simp [_validate_quantities, hq, h]
      exact List.ne_nil_of_mem this
    · have : "Quantity is too large (max 1,000,000)" ∈ _validate_quantities signal := by
        simp [_validate_quantities, hq, h]
      exact List.ne_nil_of_mem this
  · intro h1 h2 h3
    simp [_validate_quantities, hq, not_le.mpr h1, not_lt.mpr h2, not_lt.mpr h3]
  · intro nowHour cfg e he
    exact mem_validate_errors_of_mem_part nowHour signal cfg e
      (Or.inr (Or.inr (Or.inr (Or.inl he))))

/-- Witness for C3: the boundary quantity 1,000,000 passes the quantity check
and the quantity -5 fails it. -/
theorem validate_quantities_range_witness :
    _validate_quantities
      { signal_id := none, symbol := "AAPL", action := "buy",
        quantity := some ⟨1000000, 0⟩, price := none, stop_price := none,
        order_type := none, time_in_force := none } = [] ∧
    _validate_quantities
      { signal_id := none, symbol := "AAPL", action := "buy",
        quantity := some ⟨-5, 0⟩, price := none, stop_price := none,
        order_type := none, time_in_force := none } ≠ [] := by
  constructor
  · exact (validate_quantities_range _ ⟨1000000, 0⟩ rfl).2.1
      (by norm_num [Dec.toRat]) (by norm_num [Dec.toRat]) (by norm_num)
  · exact (validate_quantities_range _ ⟨-5, 0⟩ rfl).1
      (Or.inl (by norm_num [Dec.toRat]))

/-- C9: the embedded `validate_signal` is a total function, and the returned
result satisfies `is_valid = true` exactly when the accumulated error list is
empty. -/
theorem validate_signal_is_valid_iff_no_errors (nowHour : Nat) (signal : WebhookSignal)
    (cfg : AccountConfig) :
    (validate_signal nowHour signal cfg).is_valid = true ↔
    (validate_signal nowHour signal cfg).errors = [] := by
  have hvalid : (validate_signal nowHour signal cfg).is_valid =
      ((validate_signal nowHour signal cfg).errors).isEmpty := rfl
  rw [hvalid]
  cases (validate_signal nowHour signal cfg).errors with
  | nil => simp
  | cons a t => simp

/-- The minimizing fold returns an element of the candidate list. -/
theorem foldl_min_mem {α : Type} (f : α → ℚ) :
    ∀ (xs : List α) (c : α),
      xs.foldl (fun best x => if f x < f best then x else best) c ∈ c :: xs := by
  intro xs
  induction xs with
  | nil => intro c; simp
  | cons x t ih =>
    intro c
    simp only [List.foldl_cons]
    by_cases h : f x < f c
    · rw [if_pos h]
      have h2 := ih x
      simp only [List.mem_cons] at h2 ⊢
      tauto
    · rw [if_neg h]
      have h2 := ih c
      simp only [List.mem_cons] at h2 ⊢
      tauto

/-- The minimizing fold returns a value of minimal measure among the start
element and the list. -/
theorem foldl_min_le {α : Type} (f : α → ℚ) :
    ∀ (xs : List α) (c y : α), y ∈ c :: xs →
      f (xs.foldl (fun best x => if f x < f best then x else best) c) ≤ f y := by
  intro xs
  induction xs with
  | nil =>
    intro c y hy
    simp only [List.mem_cons, List.not_mem_nil, or_false] at hy
    subst hy
    simp
  | cons x t ih =>
    intro c y hy
    simp only [List.foldl_cons]
    set b := if f x < f c then x else c with hb
    have hbx : f b ≤ f x := by
      rw [hb]
      split
      · exact le_refl _
      · next h => exact le_of_not_lt h
    have hbc : f b ≤ f c := by
      rw [hb]
      split
      · next h => exact le_of_lt h
      · exact le_refl _
    have hfb : f (t.foldl (fun best z => if f z < f best then z else best) b) ≤ f b :=
      ih b b (List.mem_cons_self b t)
    rcases List.mem_cons.mp hy with h1 | h2
    · rw [h1]
      exact le_trans hfb hbc
    · rcases List.mem_cons.mp h2 with h3 | h4
      · rw [h3]
        exact le_trans hfb hbx
      · exact ih b y (List.mem_cons.mpr (Or.inr h4))

/-- C4: over call contracts with known (truthy) strikes the OTM filter keeps
exactly the contracts with strike strictly above the underlying price (for
puts, strictly below); the selection returns none exactly when no contract
survives, and otherwise a survivor of minimal strike distance to the
underlying price; for a call chain with strikes 145/150/155 at price 150 it
returns the strike-155 contract. -/
theorem select_otm_contract_spec (contracts : List OptionContract) (price : ℚ) :
    ((∀ c ∈ contracts, c.option_type = OptionType.call ∧ ∃ k, c.strike = some k ∧ k ≠ 0) →
      otm_filter contracts price =
        contracts.filter (fun c => decide (strikeVal c > price))) ∧
    ((∀ c ∈ contracts, c.option_type = OptionType.put ∧ ∃ k, c.strike = some k ∧ k ≠ 0) →
      otm_filter contracts price =
        contracts.filter (fun c => decide (strikeVal c < price))) ∧
    (_select_otm_contract contracts price = none ↔ otm_filter contracts price = []) ∧
    (∀ w, _select_otm_contract contracts price = some w →
      w ∈ otm_filter contracts price ∧
      ∀ c ∈ otm_filter contracts price,
        |strikeVal w - price| ≤ |strikeVal c - price|) ∧
    _select_otm_contract [callContract 145, callContract 150, callContract 155] 150 =
      some (callContract 155) := by
  refine ⟨?_, ?_, ?_, ?_, ?_⟩
  · intro hcall
    apply List.filter_congr
    intro c hc
    obtain ⟨htype, k, hk, hk0⟩ := hcall c hc
    simp [truthy, hk, htype, hk0, strikeVal]
  · intro hput
    apply List.filter_congr
    intro c hc
    obtain ⟨htype, k, hk, hk0⟩ := hput c hc
    simp [truthy, hk, htype, hk0, strikeVal]
  · cases hc : contracts with
    | nil => simp [_select_otm_contract, otm_filter]
    | cons a t =>
      simp only [_select_otm_contract, List.isEmpty_cons, Bool.false_eq_true, if_false]
      cases hfil : otm_filter (a :: t) price with
      | nil => simp
      | cons c rest => simp
  · intro w hw
    cases hc : contracts with
    | nil =>
      rw [hc] at hw
      simp [_select_otm_contract] at hw
    | cons a t =>
      rw [hc] at hw
      simp only [_select_otm_contract, List.isEmpty_cons, Bool.false_eq_true, if_false] at hw
      cases hfil : otm_filter (a :: t) price with
      | nil => rw [hfil] at hw; cases hw
      | cons c rest =>
        rw [hfil] at hw
        simp only [Option.some.injEq] at hw
        subst hw
        constructor
        · exact foldl_min_mem (fun x => |strikeVal x - price|) rest c
        · intro d hd
          exact foldl_min_le (fun x => |strikeVal x - price|) rest c d hd
  · decide

/-- Witness for C4 hypotheses at the concrete chain 145/150/155: the filter
keeps exactly the strike-155 contract, and the concrete selection picks it. -/
theorem select_otm_contract_spec_witness :
    otm_filter [callContract 145, callContract 150, callContract 155] 150 =
      [callContract 145, callContract 150, callContract 155].filter
        (fun c => decide (strikeVal c > 150)) ∧
    _select_otm_contract [callContract 145, callContract 150, callContract 155] 150 =
      some (callContract 155) := by
  have h := select_otm_contract_spec [callContract 145, callContract 150, callContract 155] 150
  refine ⟨h.1 ?_, h.2.2.2.2⟩
  intro c hc
  simp only [List.mem_cons, List.not_mem_nil, or_false] at hc
  rcases hc with rfl | rfl | rfl
  · exact ⟨rfl, 145, rfl, by norm_num⟩
  · exact ⟨rfl, 150, rfl, by norm_num⟩
  · exact ⟨rfl, 155, rfl, by norm_num⟩

/-- C5 counterexample: with account max 1000 and default 600, a request of
5000 (flat portfolio) exceeds twice the default, yet the code returns 1000 —
it does not collapse to the default size 600 that the claimed rule ("collapse
when the REQUEST exceeds twice the default") dictates, because the code tests
the already-clamped quantity. -/
theorem suggest_position_sizing_collapse_counterexample :
    (5000 : ℚ) > (wideDefaultAccount.default_position_size : ℚ) * 2 ∧
    suggest_position_sizing wideDefaultAccount 5000 (2 / 100) 0 = 1000 ∧
    suggest_position_sizing_claimed wideDefaultAccount 5000 (2 / 100) 0 = 600 ∧
    suggest_position_sizing wideDefaultAccount 5000 (2 / 100) 0 ≠
      suggest_position_sizing_claimed wideDefaultAccount 5000 (2 / 100) 0 := by
  refine ⟨by norm_num [wideDefaultAccount], ?_, ?_, ?_⟩ <;>
    norm_num [suggest_position_sizing, suggest_position_sizing_claimed,
      wideDefaultAccount, min_def, max_def]

/-- C5 (amended): the suggested size never drops below 1, and never exceeds
the account maximum whenever that maximum is at least 1; the collapse to the
default size is triggered by the clamped quantity (not the raw request)
exceeding twice the default. -/
theorem suggest_position_sizing_bounds (cfg : AccountConfig)
    (signal_quantity risk_percentage portfolio_value : ℚ) :
    1 ≤ suggest_position_sizing cfg signal_quantity risk_percentage portfolio_value ∧
    ((1 : ℚ) ≤ (cfg.max_position_size : ℚ) →
      suggest_position_sizing cfg signal_quantity risk_percentage portfolio_value ≤
        (cfg.max_position_size : ℚ)) := by
  simp only [suggest_position_sizing]
  constructor
  · exact le_max_right _ _
  · intro hM
    refine max_le ?_ hM
    have hs2 : (if min signal_quantity (cfg.max_position_size : ℚ) >
          (cfg.default_position_size : ℚ) * 2 then (cfg.default_position_size : ℚ)
        else min signal_quantity (cfg.max_position_size : ℚ)) ≤
        (cfg.max_position_size : ℚ) := by
      split
      · next h =>
        have hmin : min signal_quantity (cfg.max_position_size : ℚ) ≤
            (cfg.max_position_size : ℚ) := min_le_right _ _
        by_cases hd : 0 ≤ (cfg.default_position_size : ℚ)
        · linarith
        · push_neg at hd
          linarith
      · next _ => exact min_le_right _ _
    split
    · exact le_trans (min_le_left _ _) hs2
    · exact hs2

/-- Witness for C5: requesting 1 yields at least 1, requesting 5000 against
max 1000 yields at most 1000. -/
theorem suggest_position_sizing_bounds_witness :
    1 ≤ suggest_position_sizing demoAccount 1 (2 / 100) 0 ∧
    suggest_position_sizing demoAccount 5000 (2 / 100) 0 ≤
      (demoAccount.max_position_size : ℚ) :=
  ⟨(suggest_position_sizing_bounds demoAccount 1 (2 / 100) 0).1,
   (suggest_position_sizing_bounds demoAccount 5000 (2 / 100) 0).2
     (by norm_num [demoAccount])⟩

/-- The values stored by a dict insertion are the inserted value or values
that were already present. -/
theorem dictInsert_values_subset (k : String) (v : Position) (q : Position) :
    ∀ (book : List (String × Position)),
      q ∈ (dictInsert book k v).map Prod.snd → q = v ∨ q ∈ book.map Prod.snd := by
  intro book
  induction book with
  | nil =>
    intro hq
    simpa [dictInsert] using hq
  | cons e rest ih =>
    intro hq
    obtain ⟨k1, v1⟩ := e
    simp only [dictInsert] at hq
    split at hq
    · simp only [List.map_cons, List.mem_cons] at hq ⊢
      tauto
    · simp only [List.map_cons, List.mem_cons] at hq ⊢
      rcases hq with h1 | h1
      · tauto
      · rcases ih h1 with h2 | h2 <;> tauto

/-- Every value tracked after the update loop comes from the incoming list or
from the accumulator it started with. -/
theorem update_loop_values_subset (ps : List Position) :
    ∀ (b : List (String × Position)) (q : Position),
      q ∈ (ps.foldl
        (fun b p => if p.symbol ≠ "" then dictInsert b p.symbol p else b) b).map Prod.snd →
      q ∈ b.map Prod.snd ∨ q ∈ ps := by
  induction ps with
  | nil =>
    intro b q hq
    simp only [List.foldl_nil] at hq
    exact Or.inl hq
  | cons p rest ih =>
    intro b q hq
    simp only [List.foldl_cons] at hq
    rcases ih _ q hq with h1 | h1
    · by_cases h : p.symbol ≠ ""
      · rw [if_pos h] at h1
        rcases dictInsert_values_subset p.symbol p q b h1 with h2 | h2
        · right
          rw [h2]
          exact List.mem_cons_self p rest
        · exact Or.inl h2
      · rw [if_neg h] at h1
        exact Or.inl h1
    · exact Or.inr (List.mem_cons.mpr (Or.inr h1))

/-- Inserting under a different key does not change a symbol lookup. -/
theorem dictInsert_find_ne (k sym : String) (v : Position) (hne : k ≠ sym) :
    ∀ (book : List (String × Position)),
      (dictInsert book k v).find? (fun e => e.1 == sym) =
        book.find? (fun e => e.1 == sym) := by
  intro book
  have hbeq : (k == sym) = false := beq_eq_false_iff_ne.mpr hne
  induction book with
  | nil => simp [dictInsert, List.find?, hbeq]
  | cons e rest ih =>
    obtain ⟨k1, v1⟩ := e
    simp only [dictInsert]
    split
    · next h =>
      subst h
      simp [List.find?, hbeq]
    · next h =>
      cases hb : (k1 == sym) with
      | true => simp [List.find?, hb]
      | false => simp [List.find?, hb, ih]

/-- If no incoming position carries the looked-up symbol, the update loop
leaves that lookup unchanged. -/
theorem update_loop_find_unchanged (sym : String) (ps : List Position) :
    ∀ (b : List (String × Position)), (∀ p ∈ ps, p.symbol ≠ sym) →
      (ps.foldl
        (fun b p => if p.symbol ≠ "" then dictInsert b p.symbol p else b) b).find?
          (fun e => e.1 == sym) =
        b.find? (fun e => e.1 == sym) := by
  induction ps with
  | nil =>
    intro b _
    simp
  | cons p rest ih =>
    intro b hs
    simp only [List.foldl_cons]
    rw [ih _ (fun q hq => hs q (List.mem_cons.mpr (Or.inr hq)))]
    by_cases h : p.symbol ≠ ""
    · rw [if_pos h]
      exact dictInsert_find_ne p.symbol sym p (hs p (List.mem_cons_self p rest)) b
    · rw [if_neg h]

/-- C8: `update_positions` is a full snapshot replace: the resulting book is
independent of the previous book, every tracked position comes from the
argument list, and a symbol absent from the argument list is no longer
tracked afterwards. -/
theorem update_positions_snapshot :
    (∀ (book1 book2 : List (String × Position)) (ps : List Position),
      update_positions book1 ps = update_positions book2 ps) ∧
    (∀ (book : List (String × Position)) (ps : List Position) (p : Position),
      p ∈ get_all_positions (update_positions book ps) → p ∈ ps) ∧
    (∀ (book : List (String × Position)) (ps : List Position) (sym : String),
      (∀ p ∈ ps, p.symbol ≠ sym) → get_position (update_positions book ps) sym = none) := by
  refine ⟨fun _ _ _ => rfl, ?_, ?_⟩
  · intro book ps p hp
    rcases update_loop_values_subset ps [] p hp with h | h
    · simp at h
    · exact h
  · intro book ps sym hs
    unfold get_position update_positions
    rw [update_loop_find_unchanged sym ps [] hs]
    rfl

/-- Witness for C8: a book holding an AAPL option replaced by a TSLA-only
snapshot tracks the TSLA position and no longer answers for the AAPL one. -/
theorem update_positions_snapshot_witness :
    demoTslaPosition ∈ [demoTslaPosition] ∧
    get_position
      (update_positions [("AAPL  250117C00150000", demoAaplPosition)] [demoTslaPosition])
      "AAPL  250117C00150000" = none := by
  constructor
  · exact update_positions_snapshot.2.1 [("AAPL  250117C00150000", demoAaplPosition)]
      [demoTslaPosition] demoTslaPosition (by decide)
  · exact update_positions_snapshot.2.2 [("AAPL  250117C00150000", demoAaplPosition)]
      [demoTslaPosition] "AAPL  250117C00150000" (by decide)

/-- Unfolding of the drain loop: counters advance by the processed and
non-processed counts and the results accumulate one record per signal, in
order. -/
theorem drain_loop_spec (exec : TradeSignal → ExecOutcome) :
    ∀ (queue : List TradeSignal) (p f : Nat) (acc : List SignalResult),
      drain_loop exec queue p f acc =
        (p + queue.countP (fun s => (result_of exec s).status == "processed"),
         f + queue.countP (fun s => !((result_of exec s).status == "processed")),
         acc ++ queue.map (result_of exec)) := by
  intro queue
  induction queue with
  | nil =>
    intro p f acc
    simp [drain_loop]
  | cons s rest ih =>
    intro p f acc
    cases hx : exec s with
    | ret st =>
      by_cases hst : st = "processed"
      · simp only [drain_loop, hx]
        rw [if_pos hst, ih]
        simp only [List.countP_cons, List.map_cons, result_of, hx, hst,
          Prod.mk.injEq]
        refine ⟨by simp <;> omega, by simp <;> omega, by simp⟩
      · simp only [drain_loop, hx]
        rw [if_neg hst, ih]
        simp only [List.countP_cons, List.map_cons, result_of, hx,
          Prod.mk.injEq]
        have hbeq : (st == "processed") = false := beq_eq_false_iff_ne.mpr hst
        refine ⟨by simp [hbeq], by simp [hbeq] <;> omega, by simp⟩
    | exn m =>
      simp only [drain_loop, hx]
      rw [ih]
      simp only [List.countP_cons, List.map_cons, result_of, hx, Prod.mk.injEq]
      have hbeq : (("error" : String) == "processed") = false := by decide
      refine ⟨by simp [hbeq], by simp [hbeq] <;> omega, by simp⟩

/-- C7: `process_queued_signals` drains the whole queue in FIFO order — the
results list is exactly the queue mapped through the per-signal outcome, so
an exception on one signal is recorded as that signal's "error" entry (from
the `except` branch, via `result_of`) and later signals are still processed —
and the counters satisfy processed + failed = total = number of drained
signals. -/
theorem process_queued_signals_spec (exec : TradeSignal → ExecOutcome)
    (queue : List TradeSignal) :
    (process_queued_signals exec queue).results = queue.map (result_of exec) ∧
    (process_queued_signals exec queue).processed_count =
      queue.countP (fun s => (result_of exec s).status == "processed") ∧
    (process_queued_signals exec queue).failed_count =
      queue.countP (fun s => !((result_of exec s).status == "processed")) ∧
    (process_queued_signals exec queue).processed_count +
      (process_queued_signals exec queue).failed_count =
      (process_queued_signals exec queue).total_count ∧
    (process_queued_signals exec queue).total_count = queue.length := by
  have h := drain_loop_spec exec queue 0 0 []
  have hsplit : ∀ (l : List TradeSignal) (pr : TradeSignal → Bool),
      l.countP pr + l.countP (fun a => !(pr a)) = l.length := by
    intro l pr
    induction l with
    | nil => simp
    | cons a t iht =>
      simp only [List.countP_cons, List.length_cons]
      cases hpa : pr a <;> simp [hpa] <;> omega
  refine ⟨?_, ?_, ?_, ?_, ?_⟩ <;>
    simp only [process_queued_signals, h, Nat.zero_add, List.nil_append]
  exact hsplit queue (fun s => (result_of exec s).status == "processed")

/-- C6: the Shape A conversion derives the action from the side, overrides it
to close on a position-closing transition, overrides it to the new
directional side on a reversal, parses the price and size strings to
decimals, and always forces a market/day order. -/
theorem convert_deribit_payload_spec (payload : WebhookSignalPayload)
    (request_id : String) :
    (convert_deribit_payload_to_signal payload request_id).order_type = some "market" ∧
    (convert_deribit_payload_to_signal payload request_id).time_in_force = some "day" ∧
    (convert_deribit_payload_to_signal payload request_id).quantity =
      parseDec payload.size ∧
    (convert_deribit_payload_to_signal payload request_id).price =
      parseDec payload.price ∧
    (convert_deribit_payload_to_signal payload request_id).action =
      (if payload.prev_market_position ≠ MarketPosition.flat ∧
          payload.market_position = MarketPosition.flat then "close"
       else if payload.prev_market_position ≠ MarketPosition.flat ∧
          payload.market_position ≠ MarketPosition.flat ∧
          payload.prev_market_position ≠ payload.market_position then
         (if payload.market_position = MarketPosition.long then "buy" else "sell")
       else if payload.side = Side.buy then "buy" else "sell") := by
  refine ⟨rfl, rfl, rfl, rfl, ?_⟩
  obtain ⟨an, sd, ex, pd, mp, pmp, sym, pr, ts, sz, psz, idf, am, cm, qt⟩ := payload
  cases sd <;> cases mp <;> cases pmp <;> rfl

/-- C10: `create_order` returns none whenever the resolved quantity — the
explicit argument when present and non-zero, otherwise the signal quantity —
is absent or not strictly positive, and on those inputs the quantity gate
refuses before any order-parameters dict is assembled
(`build_order_params = none`); an order-parameters dict is only ever built
with a positive quantity — it carries exactly the resolved quantity.  (As the
code stands, the built dict is then lost to the `AttributeError` of the log
statement, so `create_order` returns none on every path; the claim's
none-on-bad-quantity direction holds a fortiori at the gate.) -/
theorem create_order_quantity_gate (signal : TradeSignal) (contract : OptionContract)
    (strategy : OrderStrategy) (quantity : Option ℚ) :
    ((match (if truthy quantity then quantity else signal.quantity) with
      | none => True
      | some q => q ≤ 0) →
      create_order signal contract strategy quantity = none ∧
      build_order_params signal contract strategy quantity = none) ∧
    (∀ p, build_order_params signal contract strategy quantity = some p →
      0 < p.quantity ∧
      (if truthy quantity then quantity else signal.quantity) = some p.quantity) := by
  have hco : create_order signal contract strategy quantity = none := by
    unfold create_order
    cases build_order_params signal contract strategy quantity <;> rfl
  cases hq : (if truthy quantity then quantity else signal.quantity) with
  | none =>
    refine ⟨fun _ => ⟨hco, ?_⟩, fun p hp => ?_⟩
    · simp only [build_order_params, hq]
    · simp only [build_order_params, hq] at hp
      cases hp
  | some q =>
    refine ⟨fun hle => ⟨hco, ?_⟩, fun p hp => ?_⟩
    · have hle2 : q ≤ 0 := hle
      simp only [build_order_params, hq]
      rw [if_pos hle2]
    · simp only [build_order_params, hq] at hp
      by_cases hle : q ≤ 0
      · rw [if_pos hle] at hp
        cases hp
      · rw [if_neg hle] at hp
        push_neg at hle
        split at hp
        · cases hp
        · simp only [Option.some.injEq] at hp
          subst hp
          exact ⟨hle, rfl⟩

/-- Witness for C10: with no quantity anywhere the order is refused before
any dict is assembled; with the demo signal's quantity 5 the assembled market
order dict carries exactly quantity 5. -/
theorem create_order_quantity_gate_witness :
    (create_order demoTradeSignalNoQty demoOrderContract OrderStrategy.market none = none ∧
     build_order_params demoTradeSignalNoQty demoOrderContract OrderStrategy.market none =
       none) ∧
    (0 < demoOrderParams.quantity ∧
      (if truthy none then none else demoTradeSignal.quantity) =
        some demoOrderParams.quantity) := by
  constructor
  · exact (create_order_quantity_gate demoTradeSignalNoQty demoOrderContract
      OrderStrategy.market none).1 trivial
  · exact (create_order_quantity_gate demoTradeSignal demoOrderContract
      OrderStrategy.market none).2 demoOrderParams (by decide)

end TigerOption
